import Mathlib

/-
Verification of the granular-synthesis engine (src/src/engine.py, src/web/app.py,
src/main.py) against its natural-language specification.

Shallow-embedding conventions:
- numpy float64 sample values are modelled as rationals (ℚ), the usual
  idealisation of floating point for this kind of argument;
- numpy int16 values are modelled as integers (ℤ) kept in the int16 range by an
  explicit wrap function: numpy int16 arithmetic wraps modulo 2^16 on overflow,
  and `astype(np.int16)` truncates toward zero and then wraps (the behaviour on
  the platforms the program targets);
- numpy arrays are modelled as Lean lists; a basic slice `a[lo:hi]` is a view
  clamped to the array's bounds; an in-place operation on a view is modelled by
  returning the updated backing list (explicit state passing for the one shared
  mutable array, a Voice's `audio_data`, which its Grains alias);
- a Python call that raises is modelled with `Except PyErr`;
- external collaborators (soundfile's `sf.read`, numpy's `np.hanning`) are out
  of scope per the spec; their results (the decoded sample list, the window
  table) are passed to `Voice.init` as parameters.
-/

/-- Python errors that the embedded code can raise. -/
inductive PyErr where
  | typeError
  | valueError
deriving DecidableEq, Repr

/-- Decidable equality on `Except`, used to settle concrete runs of the
embedded fallible operations by evaluation. -/
instance {e a : Type} [DecidableEq e] [DecidableEq a] : DecidableEq (Except e a) := fun x y =>
  match x, y with
  | .error u, .error v =>
    if h : u = v then .isTrue (by rw [h]) else .isFalse (by intro hc; cases hc; exact h rfl)
  | .error _, .ok _ => .isFalse (by intro hc; cases hc)
  | .ok _, .error _ => .isFalse (by intro hc; cases hc)
  | .ok u, .ok v =>
    if h : u = v then .isTrue (by rw [h]) else .isFalse (by intro hc; cases hc; exact h rfl)

/-- Conversion of a float to an integer type truncates toward zero
(numpy `astype` semantics on in-range values, matching C truncation). -/
def ratTrunc (q : ℚ) : ℤ :=
  if 0 ≤ q then Int.floor q else Int.ceil q

/-- Wrap an integer into the int16 range, the modular semantics of numpy
int16 arithmetic on overflow. -/
def wrap16 (z : ℤ) : ℤ :=
  (z + 32768) % 65536 - 32768

/-- numpy `chunk.astype(np.int16)` on one float sample: truncate toward zero,
then reduce modulo 2^16 into the int16 range. -/
def toInt16 (q : ℚ) : ℤ :=
  wrap16 (ratTrunc q)

/-- Python basic slice `l[a : b]` for `0 ≤ a ≤ b`: clamped to the list's
bounds, never out of range. -/
def pySlice (l : List ℚ) (a b : ℕ) : List ℚ :=
  (l.drop a).take (b - a)

/-- Write `vals` over the region of `l` starting at index `a`: the effect of an
in-place numpy operation on the view `l[a : a + len(vals)]`. -/
def writeRange (l : List ℚ) (a : ℕ) (vals : List ℚ) : List ℚ :=
  l.take a ++ vals ++ l.drop (a + vals.length)

/-- numpy `out[:len(vals)] += vals` on int16 buffers: elementwise add with
int16 wraparound on the prefix, rest of `out` unchanged. -/
def addInt16Into (out vals : List ℤ) : List ℤ :=
  List.zipWith (fun x y => wrap16 (x + y)) out vals ++ out.drop vals.length

/-- Grain from engine.py: `__init__(self, buffer, start_pos, length, envelope)`
sets `current_pos = 0`. The `buffer` field is a reference to the owning Voice's
`audio_data` array; it is passed explicitly to `get_chunk` (and returned
updated) because the code mutates it through a view. -/
structure Grain where
  start_pos : ℕ
  length : ℕ
  envelope : List ℚ
  current_pos : ℕ
deriving DecidableEq, Repr

/-- Grain.get_chunk from engine.py:

    remaining = self.length - self.current_pos
    if remaining == 0: return None
    chunk_size = min(size, remaining)
    chunk = self.buffer[self.start_pos + self.current_pos :
                        self.start_pos + self.current_pos + chunk_size]
    chunk *= self.envelope[self.current_pos : self.current_pos + chunk_size]
    self.current_pos += chunk_size
    return chunk

The buffer slice is a view clamped to the buffer's bounds, so it can be shorter
than `chunk_size`; the envelope slice then has a different length and the
in-place `chunk *= ...` raises ValueError (numpy broadcasting only allows equal
lengths or an envelope slice of length 1). When the shapes are compatible the
multiplication happens in place, mutating the backing buffer over the sliced
region, and the mutated view is returned. `current_pos` advances by the full
`chunk_size` even when the clamped view was shorter. -/
def Grain.get_chunk (g : Grain) (buffer : List ℚ) (size : ℕ) :
    Except PyErr (Option (List ℚ) × Grain × List ℚ) :=
  let remaining := g.length - g.current_pos
  if remaining = 0 then
    .ok (none, g, buffer)
  else
    let chunk_size := min size remaining
    let lo := g.start_pos + g.current_pos
    let chunk := pySlice buffer lo (lo + chunk_size)
    let env := pySlice g.envelope g.current_pos (g.current_pos + chunk_size)
    if env.length = chunk.length ∨ env.length = 1 then
      let prod :=
        if env.length = 1 then chunk.map (· * env.headD 0)
        else List.zipWith (· * ·) chunk env
      .ok (some prod, { g with current_pos := g.current_pos + chunk_size },
           writeRange buffer lo prod)
    else
      .error .valueError

/-- Iterate `Grain.get_chunk` over a list of requested sizes, threading the
grain and the shared buffer (a grain's lifetime of `produce` calls). -/
def Grain.run : Grain → List ℚ → List ℕ → Except PyErr (Grain × List ℚ)
  | g, buf, [] => .ok (g, buf)
  | g, buf, s :: rest =>
    match Grain.get_chunk g buf s with
    | .error e => .error e
    | .ok (_, g1, buf1) => Grain.run g1 buf1 rest

/-- GrainScheduler from engine.py. `__init__` sets
`samples_per_grain_interval = samplerate / grain_rate_hz` and
`samples_until_next_grain = samples_per_grain_interval`. The stored
`spawn_callback` is always the owning Voice's bound `spawn_grain` method;
its invocation (which raises, see `Voice.spawn_grain`) is modelled at the
Voice level. -/
structure GrainScheduler where
  samplerate : ℚ
  grain_rate_hz : ℚ
  samples_per_grain_interval : ℚ
  samples_until_next_grain : ℚ
deriving DecidableEq, Repr

/-- GrainScheduler.tick from engine.py, with a spawn callback that returns
normally (the scheduler's own control flow):

    self.samples_until_next_grain -= 1
    if self.samples_until_next_grain <= 0:
        self.spawn_callback()
        self.samples_until_next_grain = self.samples_per_grain_interval

The method takes no sample-count argument: one call decrements the countdown by
exactly 1, and on a trigger the countdown is reset to the fixed configured
interval, discarding any negative overshoot. The returned flag records whether
the callback fired (at most once per call). -/
def GrainScheduler.tick (s : GrainScheduler) : GrainScheduler × Bool :=
  let c := s.samples_until_next_grain - 1
  if c ≤ 0 then
    ({ s with samples_until_next_grain := s.samples_per_grain_interval }, true)
  else
    ({ s with samples_until_next_grain := c }, false)

/-- Voice from engine.py. `audio_data` and `samplerate` come from the external
loader (`sf.read`); `hann_window` is the external `np.hanning(grain_length)`
table, passed in as a parameter of the construction. -/
structure Voice where
  audio_data : List ℚ
  samplerate : ℚ
  grain_length : ℕ
  grain_rate_hz : ℚ
  hann_window : List ℚ
  active_grains : List Grain
  grain_scheduler : GrainScheduler
  position : ℕ
deriving DecidableEq, Repr

/-- Voice.__init__ from engine.py: `grain_length = int(samplerate *
(grain_length_ms / 1000))` (Python `int()` truncates toward zero), empty active
grain list, scheduler initialised with countdown = interval =
samplerate / grain_rate_hz, spawn position 0. The defaults in the source are
`grain_length_ms=80, grain_rate_hz=25`. -/
def Voice.init (audio_data : List ℚ) (samplerate : ℚ) (hann_window : List ℚ)
    (grain_length_ms grain_rate_hz : ℚ) : Voice :=
  { audio_data := audio_data
    samplerate := samplerate
    grain_length := (ratTrunc (samplerate * (grain_length_ms / 1000))).toNat
    grain_rate_hz := grain_rate_hz
    hann_window := hann_window
    active_grains := []
    grain_scheduler :=
      { samplerate := samplerate
        grain_rate_hz := grain_rate_hz
        samples_per_grain_interval := samplerate / grain_rate_hz
        samples_until_next_grain := samplerate / grain_rate_hz }
    position := 0 }

/-- Voice.spawn_grain from engine.py is declared as `def spawn_grain():` with
no `self` parameter. The scheduler stores and invokes it as the bound method
`self.spawn_grain`, so every call passes the instance as an unexpected
positional argument and raises TypeError before any of the body runs. -/
def Voice.spawn_grain (_v : Voice) : Except PyErr Voice :=
  .error .typeError

/-- The grain loop of Voice.get_audio_chunk: iterate over a copy of
`active_grains`, thread the shared `audio_data` buffer (mutated by each
grain's in-place envelope multiply), accumulate `chunk.astype(np.int16)` into
the int16 output via `output_buffer[:len(chunk)] += ...`, keep a grain when
its chunk is not None and remove it (from the live list) when it is. -/
def voiceGrainsLoop (size : ℕ) :
    List Grain → List ℚ → List ℤ → Except PyErr (List ℤ × List Grain × List ℚ)
  | [], buffer, out => .ok (out, [], buffer)
  | g :: rest, buffer, out =>
    match Grain.get_chunk g buffer size with
    | .error e => .error e
    | .ok (none, _, buffer1) => voiceGrainsLoop size rest buffer1 out
    | .ok (some chunk, g1, buffer1) =>
      match voiceGrainsLoop size rest buffer1 (addInt16Into out (chunk.map toInt16)) with
      | .error e => .error e
      | .ok (out1, gs1, buffer2) => .ok (out1, g1 :: gs1, buffer2)

/-- Voice.get_audio_chunk from engine.py:

    self.grain_scheduler.tick()
    output_buffer = np.zeros(chunk_size, dtype=np.int16)
    for grain in self.active_grains[:]:
        chunk = grain.get_chunk(chunk_size)
        if chunk is not None:
            output_buffer[:len(chunk)] += chunk.astype(np.int16)
        else:
            self.active_grains.remove(grain)
    return output_buffer

The scheduler is ticked exactly once per call, whatever `chunk_size` is. When
the tick triggers a spawn, the callback is the broken `spawn_grain` bound
method and the call raises TypeError (propagated to the caller); otherwise the
countdown is simply decremented by 1 and the grain loop runs. -/
def Voice.get_audio_chunk (v : Voice) (chunk_size : ℕ) :
    Except PyErr (List ℤ × Voice) :=
  if v.grain_scheduler.samples_until_next_grain - 1 ≤ 0 then
    .error .typeError
  else
    match voiceGrainsLoop chunk_size v.active_grains v.audio_data
        (List.replicate chunk_size 0) with
    | .error e => .error e
    | .ok (out, gs, buf) =>
      .ok (out,
        { v with
          grain_scheduler :=
            { v.grain_scheduler with
              samples_until_next_grain :=
                v.grain_scheduler.samples_until_next_grain - 1 }
          active_grains := gs
          audio_data := buf })

/-- GlobalClock from engine.py: `samples_per_beat = (samplerate * 60) / bpm`
is computed once in `__init__`; there is no setter method, and the code paths
that change tempo write the `bpm` attribute directly without touching
`samples_per_beat`. -/
structure GlobalClock where
  samplerate : ℚ
  bpm : ℚ
  samples_per_beat : ℚ
  current_sample : ℕ
  current_beat : ℚ
deriving DecidableEq, Repr

/-- GlobalClock.__init__ from engine.py. -/
def GlobalClock.init (samplerate bpm : ℚ) : GlobalClock :=
  { samplerate := samplerate
    bpm := bpm
    samples_per_beat := samplerate * 60 / bpm
    current_sample := 0
    current_beat := 0 }

/-- GlobalClock.tick from engine.py:
`current_sample += frames; current_beat = current_sample / samples_per_beat`. -/
def GlobalClock.tick (c : GlobalClock) (frames : ℕ) : GlobalClock :=
  let cs := c.current_sample + frames
  { c with current_sample := cs, current_beat := (cs : ℚ) / c.samples_per_beat }

/-- Engine from engine.py. -/
structure Engine where
  samplerate : ℚ
  global_clock : GlobalClock
  voices : List Voice
deriving DecidableEq, Repr

/-- Engine.__init__ from engine.py. -/
def Engine.init (samplerate bpm : ℚ) : Engine :=
  { samplerate := samplerate
    global_clock := GlobalClock.init samplerate bpm
    voices := [] }

/-- Engine.add_voice from engine.py. -/
def Engine.add_voice (e : Engine) (v : Voice) : Engine :=
  { e with voices := e.voices ++ [v] }

/-- The voice loop of Engine.get_audio_chunk: `output_buffer += voice_chunk`
on two int16 arrays of length `frames` (elementwise add with wraparound). An
exception from any voice propagates. -/
def engineVoicesLoop (frames : ℕ) :
    List Voice → List ℤ → Except PyErr (List ℤ × List Voice)
  | [], out => .ok (out, [])
  | v :: rest, out =>
    match v.get_audio_chunk frames with
    | .error e => .error e
    | .ok (block, v1) =>
      match engineVoicesLoop frames rest (addInt16Into out block) with
      | .error e => .error e
      | .ok (out1, vs1) => .ok (out1, v1 :: vs1)

/-- Engine.get_audio_chunk from engine.py:

    self.global_clock.tick(frames)
    output_buffer = np.zeros(frames, dtype=np.int16)
    for voice in self.voices:
        output_buffer += voice.get_audio_chunk(frames)
    return output_buffer

All accumulation is in int16 with modular wraparound; no clamping is applied
anywhere and the only float-to-int16 conversion happens per grain inside
Voice.get_audio_chunk. -/
def Engine.get_audio_chunk (e : Engine) (frames : ℕ) :
    Except PyErr (List ℤ × Engine) :=
  match engineVoicesLoop frames e.voices (List.replicate frames 0) with
  | .error er => .error er
  | .ok (out, vs) =>
    .ok (out, { e with global_clock := e.global_clock.tick frames, voices := vs })

/-- The /set_bpm endpoint body from web/app.py (engine assumed initialised):

    new_bpm = data.get('bpm')
    if new_bpm and engine:
        engine.global_clock.bpm = float(new_bpm)
        return ... 200
    return ... 400

`data.get('bpm')` is `None` when the key is absent; the truthiness test
rejects `None` and the number 0 (0.0 is falsy in Python) but accepts any other
number, negative values included. On acceptance only the clock's `bpm`
attribute is written. The Bool records whether the request was accepted. -/
def set_bpm (clock : GlobalClock) (request_bpm : Option ℚ) : GlobalClock × Bool :=
  match request_bpm with
  | none => (clock, false)
  | some b => if b = 0 then (clock, false) else ({ clock with bpm := b }, true)

/-- Reference mixdown modelled from the spec's words (section 4.6 and the
testable properties): the per-grain/per-voice floating-point contributions to
one output sample are summed in floating point, one hard symmetric clamp to
the int16 amplitude range is applied, and the single final conversion to the
output format follows. Used only to compare the code's mixing against the
claimed pipeline. -/
def clamp16 (q : ℚ) : ℚ :=
  max (-32768) (min 32767 q)

/-- Spec-side value of one output sample given the float contributions that
overlap it: float sum, then clamp, then one conversion. -/
def specMixSample (contributions : List ℚ) : ℤ :=
  ratTrunc (clamp16 contributions.sum)

/-- Chain two fallible voice ticks: feed the state of a first
`Voice.get_audio_chunk` result into a second call. -/
def tickSnd (size : ℕ) (p : List ℤ × Voice) : Except PyErr (List ℤ × Voice) :=
  (p.2).get_audio_chunk size

/-- Membership in the int16 output amplitude range. -/
def int16Range (x : ℤ) : Prop :=
  -32768 ≤ x ∧ x ≤ 32767

instance : DecidablePred int16Range := fun x =>
  inferInstanceAs (Decidable (-32768 ≤ x ∧ x ≤ 32767))

/-- Concrete Voice state used to exhibit int16 wraparound in the mixdown: its
single active grain reads the sample 40000 under envelope gain 3/4, so its
float contribution to the next output sample is 30000. The large scheduler
countdown keeps the (broken) spawn callback out of the way. -/
def cexVoice : Voice :=
  { audio_data := [0, 40000]
    samplerate := 44100
    grain_length := 4
    grain_rate_hz := 25
    hann_window := [0, 3/4, 3/4, 0]
    active_grains := [⟨0, 4, [0, 3/4, 3/4, 0], 1⟩]
    grain_scheduler := ⟨44100, 25, 1764, 1000⟩
    position := 0 }

/-- Concrete Engine with two voices that each contribute the float sample
30000 to the same output frame. -/
def cexEngine : Engine :=
  { samplerate := 44100
    global_clock := GlobalClock.init 44100 120
    voices := [cexVoice, cexVoice] }

/-- Concrete Voice whose single active grain becomes exhausted during the next
tick (cursor 0, length 1): used to show the grain survives that tick's active
set. -/
def c9voice : Voice :=
  { audio_data := [5]
    samplerate := 50
    grain_length := 1
    grain_rate_hz := 25
    hann_window := [1]
    active_grains := [⟨0, 1, [1], 0⟩]
    grain_scheduler := ⟨50, 25, 2, 1000⟩
    position := 0 }

/-- Concrete Voice whose single active grain is already exhausted (cursor =
length = 1) before the next tick: used to witness its removal. -/
def c9w : Voice :=
  { audio_data := [2, 3]
    samplerate := 50
    grain_length := 1
    grain_rate_hz := 25
    hann_window := [1]
    active_grains := [⟨0, 1, [1], 1⟩]
    grain_scheduler := ⟨50, 25, 2, 7⟩
    position := 0 }

/-! Helper lemmas about the embedded primitives. -/

lemma wrap16_range (z : ℤ) : int16Range (wrap16 z) := by
  unfold int16Range wrap16
  have h1 : 0 ≤ (z + 32768) % 65536 := Int.emod_nonneg _ (by norm_num)
  have h2 : (z + 32768) % 65536 < 65536 := Int.emod_lt_of_pos _ (by norm_num)
  omega

lemma mem_zipWith_wrap16 :
    ∀ (l1 l2 : List ℤ) (x : ℤ),
      x ∈ List.zipWith (fun a b => wrap16 (a + b)) l1 l2 → int16Range x := by
  intro l1
  induction l1 with
  | nil => intro l2 x hx; simp at hx
  | cons a t ih =>
    intro l2 x hx
    cases l2 with
    | nil => simp at hx
    | cons b t2 =>
      simp only [List.zipWith_cons_cons, List.mem_cons] at hx
      rcases hx with h | h
      · subst h; exact wrap16_range _
      · exact ih t2 x h

lemma addInt16Into_length (out vals : List ℤ) (h : vals.length ≤ out.length) :
    (addInt16Into out vals).length = out.length := by
  simp only [addInt16Into, List.length_append, List.length_zipWith, List.length_drop]
  omega

lemma addInt16Into_range (out vals : List ℤ) (hout : ∀ x ∈ out, int16Range x) :
    ∀ x ∈ addInt16Into out vals, int16Range x := by
  intro x hx
  rw [addInt16Into, List.mem_append] at hx
  rcases hx with h | h
  · exact mem_zipWith_wrap16 out vals x h
  · exact hout x (List.drop_subset _ _ h)

lemma pySlice_length (l : List ℚ) (a b : ℕ) :
    (pySlice l a b).length = min (b - a) (l.length - a) := by
  simp [pySlice]

lemma writeRange_length (l : List ℚ) (a : ℕ) (vals : List ℚ)
    (h : a + vals.length ≤ l.length) :
    (writeRange l a vals).length = l.length := by
  simp only [writeRange, List.length_append, List.length_take, List.length_drop]
  omega

lemma Grain.get_chunk_some_length_le (g : Grain) (buf : List ℚ) (s : ℕ)
    {chunk : List ℚ} {g1 : Grain} {buf1 : List ℚ}
    (h : g.get_chunk buf s = .ok (some chunk, g1, buf1)) : chunk.length ≤ s := by
  unfold Grain.get_chunk at h
  dsimp only at h
  split at h
  · simp at h
  · split at h
    · simp only [Except.ok.injEq, Prod.mk.injEq, Option.some.injEq] at h
      obtain ⟨h1, -, -⟩ := h
      subst h1
      split
      · simp only [List.length_map, pySlice_length]
        omega
      · simp only [List.length_zipWith, pySlice_length]
        omega
    · simp at h

lemma voiceGrainsLoop_length_range (size : ℕ) :
    ∀ (gs : List Grain) (buffer : List ℚ) (out : List ℤ),
      out.length = size → (∀ x ∈ out, int16Range x) →
      ∀ res, voiceGrainsLoop size gs buffer out = .ok res →
        res.1.length = size ∧ ∀ x ∈ res.1, int16Range x := by
  intro gs
  induction gs with
  | nil =>
    intro buffer out hl hr res h
    simp only [voiceGrainsLoop, Except.ok.injEq] at h
    subst h
    exact ⟨hl, hr⟩
  | cons g rest ih =>
    intro buffer out hl hr res h
    rw [voiceGrainsLoop] at h
    cases hc : Grain.get_chunk g buffer size with
    | error e => rw [hc] at h; simp at h
    | ok t =>
      obtain ⟨oc, g1, buf1⟩ := t
      rw [hc] at h
      cases oc with
      | none => exact ih buf1 out hl hr res h
      | some chunk =>
        dsimp only at h
        cases hr2 : voiceGrainsLoop size rest buf1 (addInt16Into out (chunk.map toInt16)) with
        | error e => rw [hr2] at h; simp at h
        | ok res2 =>
          obtain ⟨out1, gs1, buffer2⟩ := res2
          rw [hr2] at h
          simp only [Except.ok.injEq] at h
          subst h
          have hcl : chunk.length ≤ size := Grain.get_chunk_some_length_le g buffer size hc
          have hvals : (chunk.map toInt16).length ≤ out.length := by
            rw [List.length_map, hl]; exact hcl
          have hlen : (addInt16Into out (chunk.map toInt16)).length = size := by
            rw [addInt16Into_length _ _ hvals, hl]
          have hrng := addInt16Into_range out (chunk.map toInt16) hr
          exact ih buf1 (addInt16Into out (chunk.map toInt16)) hlen hrng (out1, gs1, buffer2) hr2

lemma Voice.get_audio_chunk_length_range (v : Voice) (frames : ℕ)
    {block : List ℤ} {v1 : Voice}
    (h : v.get_audio_chunk frames = .ok (block, v1)) :
    block.length = frames ∧ ∀ x ∈ block, int16Range x := by
  unfold Voice.get_audio_chunk at h
  split at h
  · simp at h
  · cases hc : voiceGrainsLoop frames v.active_grains v.audio_data
        (List.replicate frames 0) with
    | error e => rw [hc] at h; simp at h
    | ok res =>
      obtain ⟨out, gs, buf⟩ := res
      rw [hc] at h
      simp only [Except.ok.injEq, Prod.mk.injEq] at h
      obtain ⟨h1, -⟩ := h
      subst h1
      refine voiceGrainsLoop_length_range frames v.active_grains v.audio_data
        (List.replicate frames 0) (by simp) ?_ _ hc
      intro x hx
      rw [List.eq_of_mem_replicate hx]
      exact ⟨by norm_num, by norm_num⟩

lemma engineVoicesLoop_length_range (frames : ℕ) :
    ∀ (vs : List Voice) (out : List ℤ),
      out.length = frames → (∀ x ∈ out, int16Range x) →
      ∀ res, engineVoicesLoop frames vs out = .ok res →
        res.1.length = frames ∧ ∀ x ∈ res.1, int16Range x := by
  intro vs
  induction vs with
  | nil =>
    intro out hl hr res h
    simp only [engineVoicesLoop, Except.ok.injEq] at h
    subst h
    exact ⟨hl, hr⟩
  | cons v rest ih =>
    intro out hl hr res h
    rw [engineVoicesLoop] at h
    cases hc : v.get_audio_chunk frames with
    | error e => rw [hc] at h; simp at h
    | ok t =>
      obtain ⟨block, v1⟩ := t
      rw [hc] at h
      dsimp only at h
      cases hr2 : engineVoicesLoop frames rest (addInt16Into out block) with
      | error e => rw [hr2] at h; simp at h
      | ok res2 =>
        obtain ⟨out1, vs1⟩ := res2
        rw [hr2] at h
        simp only [Except.ok.injEq] at h
        subst h
        have hbl := Voice.get_audio_chunk_length_range v frames hc
        have hvals : block.length ≤ out.length := by omega
        have hlen : (addInt16Into out block).length = frames := by
          rw [addInt16Into_length _ _ hvals, hl]
        exact ih (addInt16Into out block) hlen (addInt16Into_range out block hr) (out1, vs1) hr2

/-- C1 (amended): whenever `Engine.get_audio_chunk(frames)` returns without an
exception, the returned block has exactly `frames` samples and every sample
lies in the int16 output range; the range holds because all accumulation is
int16 modular arithmetic, not because of a clamp (see the counterexample for
the clamp part of the original claim). -/
theorem engine_tick_length_and_range (e : Engine) (frames : ℕ)
    (out : List ℤ) (e1 : Engine)
    (h : e.get_audio_chunk frames = .ok (out, e1)) :
    out.length = frames ∧ ∀ x ∈ out, int16Range x := by
  unfold Engine.get_audio_chunk at h
  cases hc : engineVoicesLoop frames e.voices (List.replicate frames 0) with
  | error er => rw [hc] at h; simp at h
  | ok res =>
    obtain ⟨o, vs⟩ := res
    rw [hc] at h
    simp only [Except.ok.injEq, Prod.mk.injEq] at h
    obtain ⟨h1, -⟩ := h
    subst h1
    refine engineVoicesLoop_length_range frames e.voices (List.replicate frames 0)
      (by simp) ?_ _ hc
    intro x hx
    rw [List.eq_of_mem_replicate hx]
    exact ⟨by norm_num, by norm_num⟩

/-- Witness for `engine_tick_length_and_range` at a concrete engine: an engine
with no voices, ticked for 3 frames, returns the 3-sample zero block. -/
theorem engine_tick_length_and_range_witness : ([0, 0, 0] : List ℤ).length = 3 :=
  (engine_tick_length_and_range (Engine.init 44100 120) 3 [0, 0, 0]
    { samplerate := 44100, global_clock := (GlobalClock.init 44100 120).tick 3, voices := [] }
    (by norm_num [Engine.init, Engine.get_audio_chunk, engineVoicesLoop, GlobalClock.init,
      GlobalClock.tick, List.replicate])).1

/-- C1 (counterexample): the mixdown is not float accumulation followed by one
symmetric clamp. In `cexEngine`, each voice's grain contributes the float
sample 30000 (first conjunct shows the grain-level float chunk); the claimed
pipeline (float sum, then clamp, then convert) gives 32767, but the code's
int16 accumulation wraps 30000 + 30000 = 60000 around to -5536. -/
theorem engine_mix_wraparound_not_clamp :
    (Grain.get_chunk ⟨0, 4, [0, 3/4, 3/4, 0], 1⟩ [0, 40000] 1 =
      .ok (some [30000], ⟨0, 4, [0, 3/4, 3/4, 0], 2⟩, [0, 30000])) ∧
    (cexEngine.get_audio_chunk 1).map Prod.fst = .ok [-5536] ∧
    specMixSample [30000, 30000] = 32767 ∧ ((-5536 : ℤ) ≠ 32767) := by
  refine ⟨?_, ?_, ?_, by norm_num⟩
  · norm_num [Grain.get_chunk, pySlice, writeRange]
  · norm_num [cexEngine, cexVoice, Engine.get_audio_chunk, engineVoicesLoop,
      Voice.get_audio_chunk, voiceGrainsLoop, Grain.get_chunk, pySlice, writeRange,
      addInt16Into, toInt16, ratTrunc, wrap16, List.replicate, Except.map,
      GlobalClock.init, GlobalClock.tick]
  · norm_num [specMixSample, clamp16, ratTrunc, min_def, max_def]

/-- C2 (code evaluation): on a Voice with the non-empty, non-silent buffer
[1, 1, 1] at samplerate 50 (scheduler interval 2 samples), the first
`get_audio_chunk(64)` succeeds but decrements the scheduler countdown by only
1 (from 2 to 1) instead of 64, and the second call, whose countdown crossing
invokes the `spawn_grain` callback defined without a `self` parameter, raises
TypeError instead of appending a Grain. -/
theorem voice_grain_spawn_raises_typeerror :
    ((Voice.init [1, 1, 1] 50 [0, 3/4, 3/4, 0] 80 25).get_audio_chunk 64).map
        (GrainScheduler.samples_until_next_grain ∘ Voice.grain_scheduler ∘ Prod.snd) =
      .ok 1 ∧
    ((Voice.init [1, 1, 1] 50 [0, 3/4, 3/4, 0] 80 25).get_audio_chunk 64).map Prod.fst =
      .ok (List.replicate 64 0) ∧
    ((Voice.init [1, 1, 1] 50 [0, 3/4, 3/4, 0] 80 25).get_audio_chunk 64).bind
        (tickSnd 64) =
      .error .typeError := by
  refine ⟨?_, ?_, ?_⟩ <;>
    norm_num [Voice.init, Voice.get_audio_chunk, voiceGrainsLoop, ratTrunc,
      Except.map, Except.bind, tickSnd]

/-- C3 (counterexample): a grain whose `startOffset + length` overruns the
source buffer does not clamp the read and report exhaustion; the clamped
buffer view (2 samples) no longer matches the envelope slice (4 samples) and
the in-place envelope multiplication raises ValueError. -/
theorem grain_overrun_raises_not_exhausts :
    Grain.get_chunk ⟨2, 4, [0, 3/4, 3/4, 0], 0⟩ [1, 1, 1, 1] 4 = .error .valueError := by
  norm_num [Grain.get_chunk, pySlice, writeRange]

lemma Grain.get_chunk_inbounds (start L c : ℕ) (env buf : List ℚ) (s : ℕ)
    (hb : start + L ≤ buf.length) (he : env.length = L) (hc : c ≤ L) :
    ∃ r buf1, Grain.get_chunk ⟨start, L, env, c⟩ buf s =
        .ok (r, ⟨start, L, env, c + min s (L - c)⟩, buf1) ∧
      buf1.length = buf.length := by
  unfold Grain.get_chunk
  dsimp only
  by_cases h0 : L - c = 0
  · refine ⟨none, buf, ?_, rfl⟩
    rw [if_pos h0]
    have hm : min s (L - c) = 0 := by omega
    simp [hm]
  · rw [if_neg h0]
    have hchunk : (pySlice buf (start + c) (start + c + min s (L - c))).length =
        min s (L - c) := by
      rw [pySlice_length]; omega
    have henv : (pySlice env c (c + min s (L - c))).length = min s (L - c) := by
      rw [pySlice_length]; omega
    rw [if_pos (Or.inl (henv.trans hchunk.symm))]
    refine ⟨_, _, rfl, ?_⟩
    apply writeRange_length
    split
    · rw [List.length_map, hchunk]; omega
    · rw [List.length_zipWith, hchunk, henv]; omega

/-- C3 (amended): for a grain that stays within the source buffer
(`startOffset + length ≤ len(buffer)`, envelope of the grain's length), every
sequence of `get_chunk` calls succeeds (no exception, no out-of-bounds read);
the cursor after the calls is `min length (sum of requested sizes)`, so once
the requests total at least `length` the grain has consumed exactly `length`
samples; and the buffer keeps its length throughout. -/
theorem grain_inbounds_exact_consumption (start L : ℕ) (env buf : List ℚ)
    (sizes : List ℕ) (c : ℕ)
    (hb : start + L ≤ buf.length) (he : env.length = L) (hc : c ≤ L) :
    (Grain.run ⟨start, L, env, c⟩ buf sizes).map (Grain.current_pos ∘ Prod.fst) =
      .ok (min L (c + sizes.sum)) ∧
    (Grain.run ⟨start, L, env, c⟩ buf sizes).map (List.length ∘ Prod.snd) =
      .ok buf.length := by
  suffices h : ∃ g1 buf1, Grain.run ⟨start, L, env, c⟩ buf sizes = .ok (g1, buf1) ∧
      g1.current_pos = min L (c + sizes.sum) ∧ buf1.length = buf.length by
    obtain ⟨g1, buf1, hrun, h1, h2⟩ := h
    rw [hrun]
    constructor <;> simp [Except.map, h1, h2]
  induction sizes generalizing c buf with
  | nil =>
    refine ⟨_, _, rfl, ?_, rfl⟩
    simp only [List.sum_nil, Nat.add_zero]
    omega
  | cons s rest ih =>
    obtain ⟨r, buf1, hstep, hlen⟩ := Grain.get_chunk_inbounds start L c env buf s hb he hc
    obtain ⟨g1, buf2, hrun, h1, h2⟩ :=
      ih buf1 (c + min s (L - c)) (hlen ▸ hb) (by omega)
    refine ⟨g1, buf2, ?_, ?_, h2.trans hlen⟩
    · rw [Grain.run, hstep]
      exact hrun
    · rw [h1, List.sum_cons]
      omega

/-- Witness for `grain_inbounds_exact_consumption` on a fully in-bounds grain
of length 2 driven by three produce calls of size 1 each. -/
theorem grain_inbounds_exact_consumption_witness :
    (Grain.run ⟨0, 2, [1, 1], 0⟩ [1, 1, 1] [1, 1, 1]).map (Grain.current_pos ∘ Prod.fst) =
      .ok (min 2 (0 + ([1, 1, 1] : List ℕ).sum)) ∧
    (Grain.run ⟨0, 2, [1, 1], 0⟩ [1, 1, 1] [1, 1, 1]).map (List.length ∘ Prod.snd) =
      .ok (([1, 1, 1] : List ℚ).length) :=
  grain_inbounds_exact_consumption 0 2 [1, 1] [1, 1, 1] [1, 1, 1] 0
    (by norm_num) (by norm_num) (by norm_num)

/-- C4 (code evaluation): `Grain.get_chunk` mutates the shared source buffer.
Reading 2 samples of a grain over the buffer [1, 1, 1, 1] with envelope
[0, 3/4, 3/4, 0] rewrites the buffer in place (through the numpy view) to
[0, 3/4, 1, 1], which differs from the original contents. -/
theorem grain_get_chunk_mutates_source_buffer :
    Grain.get_chunk ⟨0, 4, [0, 3/4, 3/4, 0], 0⟩ [1, 1, 1, 1] 2 =
      .ok (some [0, 3/4], ⟨0, 4, [0, 3/4, 3/4, 0], 2⟩, [0, 3/4, 1, 1]) ∧
    ([0, 3/4, 1, 1] : List ℚ) ≠ [1, 1, 1, 1] := by
  refine ⟨?_, by norm_num⟩
  norm_num [Grain.get_chunk, pySlice, writeRange]

/-- C5 (counterexample): at interval 3/2 with countdown 1/2, one tick crosses
zero with overshoot -1/2; the claimed reset-by-adding gives countdown
(1/2 - 1) + 3/2 = 1, but the code resets to the fixed interval 3/2. -/
theorem scheduler_reset_discards_overshoot :
    GrainScheduler.tick ⟨3, 2, 3/2, 1/2⟩ = (⟨3, 2, 3/2, 3/2⟩, true) ∧
    ((1 : ℚ)/2 - 1) + 3/2 = 1 ∧ ((3 : ℚ)/2 ≠ 1) := by
  refine ⟨?_, by norm_num, by norm_num⟩
  norm_num [GrainScheduler.tick]

/-- C5 (amended): `GrainScheduler.tick` takes no sample count; one call
decrements the countdown by exactly 1, fires at most one spawn, and on firing
resets the countdown to the fixed configured interval (discarding any
overshoot) while leaving the interval unchanged. -/
theorem scheduler_unit_step_fixed_reset (s : GrainScheduler) :
    (GrainScheduler.tick s).1.samples_until_next_grain =
      (if s.samples_until_next_grain - 1 ≤ 0 then s.samples_per_grain_interval
        else s.samples_until_next_grain - 1) ∧
    (GrainScheduler.tick s).1.samples_per_grain_interval =
      s.samples_per_grain_interval ∧
    (GrainScheduler.tick s).2 = decide (s.samples_until_next_grain - 1 ≤ 0) := by
  unfold GrainScheduler.tick
  dsimp only
  split <;> rename_i h <;> simp [h]

/-- C6 (code evaluation): writing the clock's bpm (here 120 → 60 through the
web endpoint, the only tempo-setting mechanism besides the identical
tap-tempo assignment) leaves `samples_per_beat` at the construction-time value
22050, so the next `tick(44100)` advances `current_beat` by 2 (the old-bpm
rate) instead of the claimed 44100 / (44100·60/60) = 1. -/
theorem bpm_write_leaves_samples_per_beat_stale :
    (set_bpm (GlobalClock.init 44100 120) (some 60)).1.bpm = 60 ∧
    (set_bpm (GlobalClock.init 44100 120) (some 60)).1.samples_per_beat = 22050 ∧
    (set_bpm (GlobalClock.init 44100 120) (some 60)).1.current_beat = 0 ∧
    ((set_bpm (GlobalClock.init 44100 120) (some 60)).1.tick 44100).current_beat = 2 ∧
    (44100 : ℚ) / (44100 * 60 / 60) = 1 ∧ ((2 : ℚ) ≠ 1) := by
  refine ⟨?_, ?_, ?_, ?_, by norm_num, by norm_num⟩ <;>
    norm_num [set_bpm, GlobalClock.init, GlobalClock.tick]

/-- C7 (counterexample): the web endpoint accepts a negative bpm: -5 is truthy
in Python, so the request is accepted and the stored bpm changes from 120 to
-5 instead of being rejected. -/
theorem set_bpm_accepts_negative_bpm :
    (set_bpm (GlobalClock.init 44100 120) (some (-5))).2 = true ∧
    (set_bpm (GlobalClock.init 44100 120) (some (-5))).1.bpm = -5 ∧
    ((-5 : ℚ) < 0) ∧ ((GlobalClock.init 44100 120).bpm = 120) ∧
    ((-5 : ℚ) ≠ 120) := by
  refine ⟨?_, ?_, by norm_num, ?_, by norm_num⟩ <;>
    norm_num [set_bpm, GlobalClock.init]

/-- C7 (amended): the web endpoint rejects a missing bpm and the falsy value
0, leaving the stored clock unchanged in both cases. -/
theorem set_bpm_rejects_zero_and_missing (c : GlobalClock) :
    (set_bpm c none).1 = c ∧ (set_bpm c none).2 = false ∧
    (set_bpm c (some 0)).1 = c ∧ (set_bpm c (some 0)).2 = false := by
  refine ⟨rfl, rfl, ?_, ?_⟩ <;> simp [set_bpm]

/-- C8 (code evaluation): a Voice over an empty (failed-to-load) source buffer
does return all-zero blocks at first, but the tick on which the scheduler
countdown crosses zero (the second call at samplerate 50, rate 25) invokes
the broken spawn callback and raises TypeError, so tick time is not
exception-free. -/
theorem empty_buffer_voice_tick_raises_typeerror :
    ((Voice.init [] 50 [0, 3/4, 3/4, 0] 80 25).get_audio_chunk 64).map Prod.fst =
      .ok (List.replicate 64 0) ∧
    ((Voice.init [] 50 [0, 3/4, 3/4, 0] 80 25).get_audio_chunk 64).bind (tickSnd 64) =
      .error .typeError := by
  refine ⟨?_, ?_⟩ <;>
    norm_num [Voice.init, Voice.get_audio_chunk, voiceGrainsLoop, ratTrunc,
      Except.map, Except.bind, tickSnd]

/-- C9 (counterexample): a grain whose cursor reaches its length during a tick
is not removed in that tick. In `c9voice` the single grain (length 1, cursor
0) produces its last sample during `get_audio_chunk(4)` and yet remains in
the active set afterwards, now with cursor = length = 1 (exhausted). -/
theorem voice_keeps_grain_exhausted_this_tick :
    (c9voice.get_audio_chunk 4).map (Voice.active_grains ∘ Prod.snd) =
      .ok [⟨0, 1, [1], 1⟩] ∧
    (⟨0, 1, [1], 1⟩ : Grain).current_pos = (⟨0, 1, [1], 1⟩ : Grain).length := by
  refine ⟨?_, rfl⟩
  norm_num [c9voice, Voice.get_audio_chunk, voiceGrainsLoop, Grain.get_chunk,
    pySlice, writeRange, addInt16Into, toInt16, ratTrunc, wrap16,
    List.replicate, Except.map]

lemma voiceGrainsLoop_all_exhausted (size : ℕ) :
    ∀ (gs : List Grain) (buffer : List ℚ) (out : List ℤ),
      (∀ g ∈ gs, g.current_pos = g.length) →
      voiceGrainsLoop size gs buffer out = .ok (out, [], buffer) := by
  intro gs
  induction gs with
  | nil => intro buffer out _; rfl
  | cons g rest ih =>
    intro buffer out h
    have hg : g.current_pos = g.length := h g (List.mem_cons_self g rest)
    have hchunk : Grain.get_chunk g buffer size = .ok (none, g, buffer) := by
      unfold Grain.get_chunk
      dsimp only
      rw [if_pos (by omega)]
    rw [voiceGrainsLoop, hchunk]
    exact ih buffer out (fun g2 hm => h g2 (List.mem_cons_of_mem g hm))

/-- C9 (amended): a grain that is already exhausted when a tick begins is
removed from the active set during that tick (its `get_chunk` returns None and
the loop drops it): on a tick with no spawn trigger, a Voice all of whose
active grains are exhausted returns the zero block and ends with an empty
active set, the buffer untouched. -/
theorem voice_removes_previously_exhausted_grains (v : Voice) (size : ℕ)
    (hs : ¬ v.grain_scheduler.samples_until_next_grain - 1 ≤ 0)
    (hg : ∀ g ∈ v.active_grains, g.current_pos = g.length) :
    v.get_audio_chunk size = .ok (List.replicate size 0,
      { v with
        grain_scheduler := { v.grain_scheduler with
          samples_until_next_grain := v.grain_scheduler.samples_until_next_grain - 1 }
        active_grains := [] }) := by
  unfold Voice.get_audio_chunk
  rw [if_neg hs, voiceGrainsLoop_all_exhausted size v.active_grains v.audio_data
    (List.replicate size 0) hg]

/-- Witness for `voice_removes_previously_exhausted_grains` on `c9w`, whose
single grain is already exhausted before the tick. -/
theorem voice_removes_previously_exhausted_grains_witness :
    c9w.get_audio_chunk 3 = .ok (List.replicate 3 0,
      { c9w with
        grain_scheduler := { c9w.grain_scheduler with
          samples_until_next_grain := c9w.grain_scheduler.samples_until_next_grain - 1 }
        active_grains := [] }) :=
  voice_removes_previously_exhausted_grains c9w 3 (by norm_num [c9w])
    (by
      intro g hgm
      rw [show c9w.active_grains = [⟨0, 1, [1], 1⟩] from rfl, List.mem_singleton] at hgm
      subst hgm
      rfl)
